import Mathlib

/-!
Shallow embedding of the learning-platform quiz engine (session lifecycle,
answer validation, and scoring), translated from:

* src/models/session.py   — SessionStatus, Answer, QuizSession, request/response models
* src/models/quiz.py      — QuestionType, Question, Quiz
* src/services/database.py — DatabaseService (MongoDB-backed session store)
* src/services/quiz_client.py — QuizClient.get_quiz (external quiz catalog)
* src/services/session_service.py — SessionService (the engine operations)

Modelling conventions: Python floats become rationals; datetimes become
abstract Nat ticks supplied by the caller (each datetime.utcnow call site is a
separate parameter); the MongoDB collection becomes an association list from
id strings to session documents; network and store availability are explicit
Boolean oracles (avail for the quiz catalog, dbOk for the store), and every
raise site of SessionServiceError with a distinct message becomes a distinct
constructor of SessionError.
-/

namespace QuizEngine

/-- Session status enum (src/models/session.py, SessionStatus). -/
inductive SessionStatus where
  | in_progress
  | completed
  | abandoned
  deriving DecidableEq

/-- One recorded answer (src/models/session.py, Answer).  question_index is a
Python int, hence Int; answered_at is the utcnow tick at submission. -/
structure Answer where
  question_index : Int
  user_answer : String
  is_correct : Bool
  answered_at : Nat
  deriving DecidableEq

/-- One quiz session document (src/models/session.py, QuizSession). -/
structure QuizSession where
  id : Option String
  user_id : String
  quiz_id : String
  book_id : String
  answers : List Answer
  score : Option Rat
  started_at : Nat
  completed_at : Option Nat
  status : SessionStatus
  deriving DecidableEq

/-- Question type enum (src/models/quiz.py, QuestionType); OPEN is spelled
open_ended because open is a Lean keyword. -/
inductive QuestionType where
  | multiple_choice
  | boolean
  | open_ended
  deriving DecidableEq

/-- Difficulty enum (src/models/quiz.py, DifficultyLevel). -/
inductive DifficultyLevel where
  | easy
  | medium
  | hard
  deriving DecidableEq

/-- The pydantic field correct_answer has type Union[str, bool]. -/
inductive CorrectAnswer where
  | str (s : String)
  | bool (b : Bool)
  deriving DecidableEq

/-- One quiz question (src/models/quiz.py, Question). -/
structure Question where
  question : String
  qtype : QuestionType
  correct_answer : CorrectAnswer
  options : Option (List String)
  explanation : String
  difficulty : DifficultyLevel
  topic : String
  concepts_tested : List String
  deriving DecidableEq

/-- A quiz (src/models/quiz.py, Quiz).  The questions_count field is omitted
because QuizClient.get_quiz always sets it to len(questions)
(src/services/quiz_client.py line 33); the length of questions is used in its
place wherever the source reads either. -/
structure Quiz where
  id : String
  book_id : String
  questions : List Question
  deriving DecidableEq

/-- Textual form of a Union[str, bool] value under Python str():
booleans render as True / False (src/services/session_service.py line 98
applies str to question.correct_answer). -/
def pyStr : CorrectAnswer → String
  | .str s => s
  | .bool b => if b then "True" else "False"

/-- Whitespace characters removed by Python str.strip() with no argument
(ASCII portion of the default set). -/
def isPySpace (c : Char) : Bool :=
  c == ' ' || c == '\t' || c == '\n' || c == '\r' || c == '\x0b' || c == '\x0c'

/-- Python str.strip(): drop leading and trailing whitespace. -/
def pyStrip (s : String) : String :=
  ⟨((s.data.dropWhile isPySpace).reverse.dropWhile isPySpace).reverse⟩

/-- Lower-casing of one character (ASCII range of Python str.lower()). -/
def pyLowerChar (c : Char) : Char :=
  if 'A' ≤ c && c ≤ 'Z' then Char.ofNat (c.toNat + 32) else c

/-- Python str.lower(). -/
def pyLower (s : String) : String :=
  ⟨s.data.map pyLowerChar⟩

/-- The normalization applied to both sides of the answer comparison:
strip surrounding whitespace, then lower-case
(src/services/session_service.py lines 97–98). -/
def normalize (s : String) : String :=
  pyLower (pyStrip s)

/-- SessionService.calculate_score (src/services/session_service.py lines
24–29): 0.0 for an empty list, else correct_count / len(answers) * 100. -/
def calculate_score (answers : List Answer) : Rat :=
  if answers.isEmpty then 0
  else ((answers.countP fun a => a.is_correct : Nat) : Rat) / ((answers.length : Nat) : Rat) * 100

/-- Request body for starting a session (src/models/session.py,
StartSessionRequest). -/
structure StartSessionRequest where
  user_id : String
  quiz_id : String
  deriving DecidableEq

/-- Response of start_session (src/models/session.py, StartSessionResponse). -/
structure StartSessionResponse where
  session_id : String
  quiz_id : String
  total_questions : Nat
  status : SessionStatus
  started_at : Nat
  deriving DecidableEq

/-- Request body for submitting an answer (src/models/session.py,
SubmitAnswerRequest). -/
structure SubmitAnswerRequest where
  question_index : Int
  user_answer : String
  deriving DecidableEq

/-- Response of submit_answer (src/models/session.py, SubmitAnswerResponse). -/
structure SubmitAnswerResponse where
  is_correct : Bool
  correct_answer : String
  explanation : String
  current_score : Rat
  questions_answered : Nat
  total_questions : Nat
  deriving DecidableEq

/-- Response of get_session_status (src/models/session.py,
SessionStatusResponse).  The source field is Optional[float] but the service
always writes a value (session.score if session.score is not None else
calculate_score), so it is modelled as Rat. -/
structure SessionStatusResponse where
  session_id : String
  quiz_id : String
  book_id : String
  status : SessionStatus
  score : Rat
  questions_answered : Nat
  total_questions : Nat
  started_at : Nat
  completed_at : Option Nat
  deriving DecidableEq

/-- Response of complete_session (src/models/session.py,
CompleteSessionResponse). -/
structure CompleteSessionResponse where
  session_id : String
  final_score : Rat
  questions_answered : Nat
  total_questions : Nat
  completed_at : Nat
  status : SessionStatus
  deriving DecidableEq

/-- The MongoDB quiz_sessions collection, as an association list from the
string form of the document _id to the session document. -/
abbrev DB := List (String × QuizSession)

/-- One hex digit, as accepted by bson ObjectId parsing. -/
def isHexDigit (c : Char) : Bool :=
  c.isDigit || ('a' ≤ c && c ≤ 'f') || ('A' ≤ c && c ≤ 'F')

/-- bson ObjectId.is_valid for a string argument: exactly 24 hex characters. -/
def isValidObjectId (s : String) : Bool :=
  s.length == 24 && s.data.all isHexDigit

/-- First document whose key equals sid (find_one on the _id index). -/
def dbLookup (db : DB) (sid : String) : Option QuizSession :=
  (db.find? fun p => p.1 == sid).map fun p => p.2

/-- update_one: rewrite the first document whose key equals sid, leaving the
rest of the collection untouched. -/
def dbUpdateFirst (db : DB) (sid : String) (f : QuizSession → QuizSession) : DB :=
  match db with
  | [] => []
  | p :: rest => if p.1 == sid then (p.1, f p.2) :: rest else p :: dbUpdateFirst rest sid f

/-- Distinct raise sites of SessionServiceError / QuizClientError wrapping in
src/services/session_service.py (each constructor corresponds to one distinct
message produced by the source). -/
inductive SessionError where
  | sessionNotFound (sid : String)
  | sessionNotActive (sid : String)
  | quizNotFound (qid : String)
  | upstreamUnavailable
  | invalidQuestionIndex (i : Int)
  | duplicateAnswer (i : Int)
  | completionConflict (sid : String)
  | storeUnavailable
  | internalError
  deriving DecidableEq

/-- DatabaseService.get_session (src/services/database.py lines 70–82):
the ObjectId validity check runs before any store access and returns None for
an invalid id; dbOk models whether the underlying find_one call succeeds
(False makes the call raise, which the service wraps). -/
def dbGetSession (dbOk : Bool) (db : DB) (sid : String) : Except Unit (Option QuizSession) :=
  if !(isValidObjectId sid) then .ok none
  else if dbOk then .ok (dbLookup db sid)
  else .error ()

/-- DatabaseService.create_session (src/services/database.py lines 60–68):
inserts the document (id excluded, newly assigned ObjectId string newId) and
returns the string form of the inserted id. -/
def dbCreateSession (db : DB) (newId : String) (s : QuizSession) : String × DB :=
  (newId, db ++ [(newId, { s with id := some newId })])

/-- DatabaseService.add_answer (src/services/database.py lines 98–110):
push the answer onto the answers array of the document matched by _id only;
applied is modified_count > 0, i.e. whether a document matched. -/
def dbAddAnswer (db : DB) (sid : String) (a : Answer) : Bool × DB :=
  if !(isValidObjectId sid) then (false, db)
  else
    match dbLookup db sid with
    | none => (false, db)
    | some _ => (true, dbUpdateFirst db sid fun s => { s with answers := s.answers ++ [a] })

/-- The document produced by the completion update's set clause
(src/services/database.py lines 117–126). -/
def completedDoc (s : QuizSession) (score : Rat) (now : Nat) : QuizSession :=
  { s with score := some score, completed_at := some now, status := .completed }

/-- DatabaseService.complete_session (src/services/database.py lines 112–130):
update_one filtered by _id only (no status condition), setting score,
completed_at and status; applied is modified_count > 0, i.e. a document
matched and the set clause changed it. -/
def dbCompleteSession (db : DB) (sid : String) (score : Rat) (now : Nat) : Bool × DB :=
  if !(isValidObjectId sid) then (false, db)
  else
    match dbLookup db sid with
    | none => (false, db)
    | some s =>
      (if completedDoc s score now = s then false else true,
       dbUpdateFirst db sid fun t => completedDoc t score now)

/-- The external quiz catalog: the stable mapping from quiz id to quiz content
served by the quiz-generator (spec section 3: question order is stable for the
lifetime of a quiz). -/
abbrev Catalog := String → Option Quiz

/-- QuizClient.get_quiz (src/services/quiz_client.py lines 19–54): returns
None when the provider answers 404, raises QuizClientError when the provider
is unreachable or errors (modelled by avail = false). -/
def getQuiz (avail : Bool) (catalog : Catalog) (qid : String) : Except Unit (Option Quiz) :=
  if avail then .ok (catalog qid) else .error ()

/-- The QuizSession constructed by SessionService.start_session
(src/services/session_service.py lines 39–44), with defaults from the model:
empty answers, no score, no completion time, status in_progress. -/
def newSessionDoc (req : StartSessionRequest) (book_id : String) (now : Nat) : QuizSession :=
  { id := none
    user_id := req.user_id
    quiz_id := req.quiz_id
    book_id := book_id
    answers := []
    score := none
    started_at := now
    completed_at := none
    status := .in_progress }

/-- SessionService.start_session (src/services/session_service.py lines
31–64).  Returns the outcome together with the resulting store state; newId is
the ObjectId the store assigns on insert and now the utcnow tick of the
QuizSession constructor. -/
def start_session (avail : Bool) (catalog : Catalog) (db : DB) (newId : String)
    (now : Nat) (req : StartSessionRequest) :
    Except SessionError StartSessionResponse × DB :=
  match getQuiz avail catalog req.quiz_id with
  | .error _ => (.error .upstreamUnavailable, db)
  | .ok none => (.error (.quizNotFound req.quiz_id), db)
  | .ok (some quiz) =>
    let created := dbCreateSession db newId (newSessionDoc req quiz.book_id now)
    (.ok { session_id := created.1
           quiz_id := req.quiz_id
           total_questions := quiz.questions.length
           status := .in_progress
           started_at := now },
     created.2)

/-- SessionService.submit_answer (src/services/session_service.py lines
66–132).  Returns the outcome together with the resulting store state; now is
the utcnow tick used for answered_at. -/
def submit_answer (avail dbOk : Bool) (catalog : Catalog) (db : DB) (sid : String)
    (now : Nat) (req : SubmitAnswerRequest) :
    Except SessionError SubmitAnswerResponse × DB :=
  match dbGetSession dbOk db sid with
  | .error _ => (.error .storeUnavailable, db)
  | .ok none => (.error (.sessionNotFound sid), db)
  | .ok (some session) =>
    if session.status ≠ SessionStatus.in_progress then
      (.error (.sessionNotActive sid), db)
    else
      match getQuiz avail catalog session.quiz_id with
      | .error _ => (.error .upstreamUnavailable, db)
      | .ok none => (.error (.quizNotFound session.quiz_id), db)
      | .ok (some quiz) =>
        if req.question_index < 0 ∨ (quiz.questions.length : Int) ≤ req.question_index then
          (.error (.invalidQuestionIndex req.question_index), db)
        else if session.answers.any fun a => a.question_index == req.question_index then
          (.error (.duplicateAnswer req.question_index), db)
        else
          match quiz.questions[req.question_index.toNat]? with
          | none => (.error .internalError, db)
          | some question =>
            let is_correct := normalize req.user_answer == normalize (pyStr question.correct_answer)
            let answer : Answer :=
              { question_index := req.question_index
                user_answer := req.user_answer
                is_correct := is_correct
                answered_at := now }
            let pushed := dbAddAnswer db sid answer
            match dbGetSession dbOk pushed.2 sid with
            | .error _ => (.error .internalError, pushed.2)
            | .ok none => (.error .internalError, pushed.2)
            | .ok (some updated) =>
              (.ok { is_correct := is_correct
                     correct_answer := pyStr question.correct_answer
                     explanation := question.explanation
                     current_score := calculate_score updated.answers
                     questions_answered := updated.answers.length
                     total_questions := quiz.questions.length },
               pushed.2)

/-- SessionService.get_session_status (src/services/session_service.py lines
134–160).  Read-only.  A QuizClientError from get_quiz is not degraded: it is
caught by the generic except clause and re-raised (upstreamUnavailable); only
a None quiz degrades total_questions to 0. -/
def get_session_status (avail dbOk : Bool) (catalog : Catalog) (db : DB) (sid : String) :
    Except SessionError SessionStatusResponse :=
  match dbGetSession dbOk db sid with
  | .error _ => .error .storeUnavailable
  | .ok none => .error (.sessionNotFound sid)
  | .ok (some session) =>
    match getQuiz avail catalog session.quiz_id with
    | .error _ => .error .upstreamUnavailable
    | .ok mq =>
      .ok { session_id := sid
            quiz_id := session.quiz_id
            book_id := session.book_id
            status := session.status
            score := session.score.getD (calculate_score session.answers)
            questions_answered := session.answers.length
            total_questions := (mq.map fun q => q.questions.length).getD 0
            started_at := session.started_at
            completed_at := session.completed_at }

/-- SessionService.complete_session (src/services/session_service.py lines
162–200).  nowDb is the utcnow tick taken inside the store update for
completed_at; nowResp the later utcnow tick used in the response. -/
def complete_session (avail dbOk : Bool) (catalog : Catalog) (db : DB) (sid : String)
    (nowDb nowResp : Nat) :
    Except SessionError CompleteSessionResponse × DB :=
  match dbGetSession dbOk db sid with
  | .error _ => (.error .storeUnavailable, db)
  | .ok none => (.error (.sessionNotFound sid), db)
  | .ok (some session) =>
    if session.status ≠ SessionStatus.in_progress then
      (.error (.sessionNotActive sid), db)
    else
      let final_score := calculate_score session.answers
      let res := dbCompleteSession db sid final_score nowDb
      if res.1 = false then
        (.error (.completionConflict sid), res.2)
      else
        match getQuiz avail catalog session.quiz_id with
        | .error _ => (.error .upstreamUnavailable, res.2)
        | .ok mq =>
          (.ok { session_id := sid
                 final_score := final_score
                 questions_answered := session.answers.length
                 total_questions := (mq.map fun q => q.questions.length).getD 0
                 completed_at := nowResp
                 status := .completed },
           res.2)

/-- Stores reachable through the engine operations, starting from an empty
collection, against a fixed quiz catalog.  A start step carries the store's
guarantees about the freshly assigned ObjectId (valid and unused); the
availability oracles and timestamps of each step are arbitrary. -/
inductive Reachable (catalog : Catalog) : DB → Prop where
  | init : Reachable catalog []
  | start (db : DB) (avail : Bool) (newId : String) (now : Nat) (req : StartSessionRequest) :
      Reachable catalog db →
      isValidObjectId newId = true →
      dbLookup db newId = none →
      Reachable catalog (start_session avail catalog db newId now req).2
  | submit (db : DB) (avail dbOk : Bool) (sid : String) (now : Nat) (req : SubmitAnswerRequest) :
      Reachable catalog db →
      Reachable catalog (submit_answer avail dbOk catalog db sid now req).2
  | complete (db : DB) (avail dbOk : Bool) (sid : String) (nowDb nowResp : Nat) :
      Reachable catalog db →
      Reachable catalog (complete_session avail dbOk catalog db sid nowDb nowResp).2

/-- Well-formedness of a stored session's answer collection: question indices
are pairwise distinct, and every recorded index is nonnegative and below the
question count of the catalog quiz the session references. -/
def AnswersWF (catalog : Catalog) (s : QuizSession) : Prop :=
  (s.answers.map fun a => a.question_index).Nodup ∧
  ∀ a ∈ s.answers, 0 ≤ a.question_index ∧
    ∃ q, catalog s.quiz_id = some q ∧ a.question_index < (q.questions.length : Int)

/-- Well-formedness of a stored session's score fields relative to its
status: no score or completion time while in progress; both set once
completed. -/
def ScoreWF (s : QuizSession) : Prop :=
  (s.status = SessionStatus.in_progress → s.score = none ∧ s.completed_at = none) ∧
  (s.status = SessionStatus.completed → s.score ≠ none ∧ s.completed_at ≠ none)

/-- Store invariant: every stored document has a valid ObjectId key and a
well-formed session. -/
def DBInv (catalog : Catalog) (db : DB) : Prop :=
  ∀ p ∈ db, isValidObjectId p.1 = true ∧ AnswersWF catalog p.2 ∧ ScoreWF p.2

/-! Concrete data used by the witness theorems: the one-question quiz of spec
section 8 (correct answer Rome) and a store obtained by running the engine
operations on it. -/

/-- A valid 24-hex-character ObjectId string (used by the repository's own
test suite). -/
def exSid : String := "507f1f77bcf86cd799439011"

/-- A second valid ObjectId string, not present in any example store. -/
def exSid2 : String := "507f1f77bcf86cd799439012"

/-- Example question: one open question whose correct answer is Rome. -/
def exQuestion : Question :=
  { question := "Capital of Italy?"
    qtype := .open_ended
    correct_answer := .str "Rome"
    options := none
    explanation := "Rome is the capital of Italy."
    difficulty := .easy
    topic := "geography"
    concepts_tested := ["capitals"] }

/-- Example boolean question, for exercising the textual-form conversion. -/
def exBoolQuestion : Question :=
  { question := "Is water wet?"
    qtype := .boolean
    correct_answer := .bool true
    options := none
    explanation := "Yes."
    difficulty := .easy
    topic := "science"
    concepts_tested := [] }

/-- Example one-question quiz. -/
def exQuiz : Quiz :=
  { id := "quiz-1", book_id := "book-1", questions := [exQuestion] }

/-- Example catalog serving exactly exQuiz under the id quiz-1. -/
def exCatalog : Catalog := fun qid => if qid = "quiz-1" then some exQuiz else none

/-- Example start request. -/
def exStartReq : StartSessionRequest := { user_id := "user-1", quiz_id := "quiz-1" }

/-- Example submit request: index 0, answer text that normalizes to rome. -/
def exSubmitReq : SubmitAnswerRequest := { question_index := 0, user_answer := " ROME " }

/-- Store after starting one session. -/
def exDb1 : DB := (start_session true exCatalog [] exSid 0 exStartReq).2

/-- Store after additionally submitting the answer for question 0. -/
def exDb2 : DB := (submit_answer true true exCatalog exDb1 exSid 1 exSubmitReq).2

/-- Store after additionally completing the session. -/
def exDb3 : DB := (complete_session true true exCatalog exDb2 exSid 2 3).2

/-- The session document as stored in exDb2. -/
def exSession2 : QuizSession :=
  { id := some exSid
    user_id := "user-1"
    quiz_id := "quiz-1"
    book_id := "book-1"
    answers := [{ question_index := 0, user_answer := " ROME ", is_correct := true, answered_at := 1 }]
    score := none
    started_at := 0
    completed_at := none
    status := .in_progress }

/-- The session document as stored in exDb3 (score written as the score
computation the engine performed, which evaluates to 100). -/
def exSession3 : QuizSession :=
  { exSession2 with
    score := some (calculate_score exSession2.answers)
    completed_at := some 2
    status := .completed }

/-- An already-completed session with a literal score, used to refute the
status-guard reading of the store's completion update. -/
def exCompletedSession : QuizSession :=
  { exSession2 with score := some 37, completed_at := some 2, status := .completed }

/-- A store holding exCompletedSession under exSid. -/
def exDbCompleted : DB := [(exSid, exCompletedSession)]

/-- A store holding an in-progress session that references a quiz id absent
from exCatalog. -/
def exDbBadQuiz : DB :=
  [(exSid, { exSession2 with quiz_id := "missing-quiz", answers := [] })]

/-- A start request whose quiz id does not resolve in exCatalog. -/
def exStartReqMissing : StartSessionRequest :=
  { user_id := "user-1", quiz_id := "missing-quiz" }

/-- A submit request whose index is out of range for the one-question quiz. -/
def exBadIdxReq : SubmitAnswerRequest :=
  { question_index := 7, user_answer := "Rome" }

/-- The response produced by the example answer submission (score written as
the computation the engine performed, which evaluates to 100). -/
def exSubmitResp : SubmitAnswerResponse :=
  { is_correct := true
    correct_answer := "Rome"
    explanation := "Rome is the capital of Italy."
    current_score := calculate_score exSession2.answers
    questions_answered := 1
    total_questions := 1 }

/-! Helper lemmas about the store primitives. -/

lemma dbLookup_nil (sid : String) : dbLookup [] sid = none := rfl

lemma dbLookup_cons (k : String) (v : QuizSession) (rest : DB) (sid : String) :
    dbLookup ((k, v) :: rest) sid = if k == sid then some v else dbLookup rest sid := by
  by_cases h : (k == sid) = true
  · simp [dbLookup, List.find?_cons_of_pos, h]
  · simp only [Bool.not_eq_true] at h
    simp [dbLookup, List.find?_cons_of_neg, h]

lemma dbLookup_mem {db : DB} {sid : String} {s : QuizSession}
    (h : dbLookup db sid = some s) : (sid, s) ∈ db := by
  induction db with
  | nil => simp [dbLookup_nil] at h
  | cons p rest ih =>
    rcases p with ⟨k, v⟩
    rw [dbLookup_cons] at h
    by_cases hk : (k == sid) = true
    · rw [if_pos hk] at h
      obtain rfl : v = s := by injection h
      obtain rfl : k = sid := by simpa using hk
      exact List.mem_cons_self _ _
    · rw [if_neg hk] at h
      exact List.mem_cons_of_mem _ (ih h)

lemma mem_dbUpdateFirst {db : DB} {sid : String} {f : QuizSession → QuizSession}
    {p : String × QuizSession} (hp : p ∈ dbUpdateFirst db sid f) :
    p ∈ db ∨ ∃ v, dbLookup db sid = some v ∧ p = (sid, f v) := by
  induction db with
  | nil => simp [dbUpdateFirst] at hp
  | cons q rest ih =>
    rcases q with ⟨k, v⟩
    rw [dbUpdateFirst] at hp
    by_cases hk : (k == sid) = true
    · rw [if_pos hk] at hp
      obtain rfl : k = sid := by simpa using hk
      rcases List.mem_cons.mp hp with h | h
      · right
        exact ⟨v, by simp [dbLookup_cons], h⟩
      · exact Or.inl (List.mem_cons_of_mem _ h)
    · rw [if_neg hk] at hp
      rcases List.mem_cons.mp hp with h | h
      · exact Or.inl (h ▸ List.mem_cons_self _ _)
      · rcases ih h with h' | ⟨w, hw, hpw⟩
        · exact Or.inl (List.mem_cons_of_mem _ h')
        · right
          refine ⟨w, ?_, hpw⟩
          rw [dbLookup_cons, if_neg hk]
          exact hw

lemma dbLookup_updateFirst_self (db : DB) (sid : String) (f : QuizSession → QuizSession) :
    dbLookup (dbUpdateFirst db sid f) sid = (dbLookup db sid).map f := by
  induction db with
  | nil => simp [dbUpdateFirst, dbLookup_nil]
  | cons q rest ih =>
    rcases q with ⟨k, v⟩
    rw [dbUpdateFirst]
    by_cases hk : (k == sid) = true
    · rw [if_pos hk, dbLookup_cons, dbLookup_cons, if_pos hk, if_pos hk]
      rfl
    · rw [if_neg hk, dbLookup_cons, dbLookup_cons, if_neg hk, if_neg hk]
      exact ih

lemma dbLookup_updateFirst_ne {sid sid2 : String} (db : DB) (f : QuizSession → QuizSession)
    (h : sid ≠ sid2) :
    dbLookup (dbUpdateFirst db sid2 f) sid = dbLookup db sid := by
  induction db with
  | nil => simp [dbUpdateFirst]
  | cons q rest ih =>
    rcases q with ⟨k, v⟩
    rw [dbUpdateFirst]
    by_cases hk : (k == sid2) = true
    · rw [if_pos hk]
      rw [dbLookup_cons, dbLookup_cons]
      have hkeq : k = sid2 := by simpa using hk
      have hne : ¬ ((k == sid) = true) := by
        simp only [beq_iff_eq]
        intro hEq
        apply h
        rw [← hEq, hkeq]
      rw [if_neg hne, if_neg hne]
    · rw [if_neg hk, dbLookup_cons, dbLookup_cons]
      by_cases hks : (k == sid) = true
      · rw [if_pos hks, if_pos hks]
      · rw [if_neg hks, if_neg hks]
        exact ih

lemma dbLookup_append_some {db : DB} {sid : String} {s : QuizSession} (l : DB)
    (h : dbLookup db sid = some s) :
    dbLookup (db ++ l) sid = some s := by
  induction db with
  | nil => simp [dbLookup_nil] at h
  | cons q rest ih =>
    rcases q with ⟨k, v⟩
    rw [dbLookup_cons] at h
    rw [List.cons_append, dbLookup_cons]
    by_cases hk : (k == sid) = true
    · rw [if_pos hk] at h ⊢
      exact h
    · rw [if_neg hk] at h ⊢
      exact ih h

lemma dbLookup_append_of_none {db : DB} {sid : String} (l : DB)
    (h : dbLookup db sid = none) :
    dbLookup (db ++ l) sid = dbLookup l sid := by
  induction db with
  | nil => simp
  | cons q rest ih =>
    rcases q with ⟨k, v⟩
    rw [dbLookup_cons] at h
    rw [List.cons_append, dbLookup_cons]
    by_cases hk : (k == sid) = true
    · rw [if_pos hk] at h
      exact absurd h (by simp)
    · rw [if_neg hk] at h ⊢
      exact ih h

lemma dbGetSession_ok_some {dbOk : Bool} {db : DB} {sid : String} {s : QuizSession}
    (h : dbGetSession dbOk db sid = .ok (some s)) :
    dbOk = true ∧ isValidObjectId sid = true ∧ dbLookup db sid = some s := by
  unfold dbGetSession at h
  by_cases hv : isValidObjectId sid = true
  · rw [hv] at h
    simp only [Bool.not_true, Bool.false_eq_true, if_false] at h
    cases dbOk with
    | true =>
      refine ⟨rfl, hv, ?_⟩
      simpa using h
    | false => simp at h
  · simp only [Bool.not_eq_true] at hv
    rw [hv] at h
    simp at h

lemma dbGetSession_of_facts {dbOk : Bool} {db : DB} {sid : String}
    (hOk : dbOk = true) (hv : isValidObjectId sid = true) :
    dbGetSession dbOk db sid = .ok (dbLookup db sid) := by
  unfold dbGetSession
  rw [hv, hOk]
  simp

lemma getQuiz_ok_some {avail : Bool} {catalog : Catalog} {qid : String} {q : Quiz}
    (h : getQuiz avail catalog qid = .ok (some q)) :
    avail = true ∧ catalog qid = some q := by
  unfold getQuiz at h
  cases avail with
  | true => simpa using h
  | false => simp at h

lemma dbAddAnswer_of_found {db : DB} {sid : String} {s : QuizSession} (a : Answer)
    (hv : isValidObjectId sid = true) (h : dbLookup db sid = some s) :
    dbAddAnswer db sid a =
      (true, dbUpdateFirst db sid fun t => { t with answers := t.answers ++ [a] }) := by
  unfold dbAddAnswer
  rw [hv, h]
  simp

/-- A list of pairwise-distinct integers all lying in the interval from 0
inclusive to n exclusive has length at most n. -/
lemma nodup_int_range_length {l : List Int} {n : Nat}
    (hd : l.Nodup) (hb : ∀ x ∈ l, 0 ≤ x ∧ x < (n : Int)) :
    l.length ≤ n := by
  classical
  have hinj : ∀ x ∈ l, ∀ y ∈ l, x.toNat = y.toNat → x = y := by
    intro x hx y hy hxy
    have hx0 := (hb x hx).1
    have hy0 := (hb y hy).1
    omega
  have hnd : (l.map Int.toNat).Nodup := List.Nodup.map_on hinj hd
  have hsub : (l.map Int.toNat).toFinset ⊆ Finset.range n := by
    intro m hm
    rw [List.mem_toFinset] at hm
    rcases List.mem_map.mp hm with ⟨x, hx, rfl⟩
    have := hb x hx
    rw [Finset.mem_range]
    omega
  have hcard := Finset.card_le_card hsub
  rw [Finset.card_range, List.toFinset_card_of_nodup hnd] at hcard
  simpa using hcard

/-! Invariant preservation for each store mutation and engine operation. -/

lemma AnswersWF_set_answers {catalog : Catalog} {s : QuizSession} {l : List Answer}
    (hnd : (l.map fun a => a.question_index).Nodup)
    (hb : ∀ a ∈ l, 0 ≤ a.question_index ∧
      ∃ q, catalog s.quiz_id = some q ∧ a.question_index < (q.questions.length : Int)) :
    AnswersWF catalog { s with answers := l } := by
  exact ⟨hnd, hb⟩

lemma DBInv_dbAddAnswer {catalog : Catalog} {db : DB} {sid : String}
    {session : QuizSession} {a : Answer}
    (hinv : DBInv catalog db)
    (hlk : dbLookup db sid = some session)
    (hfresh : a.question_index ∉ session.answers.map fun b => b.question_index)
    (h0 : 0 ≤ a.question_index)
    (hq : ∃ q, catalog session.quiz_id = some q ∧
      a.question_index < (q.questions.length : Int)) :
    DBInv catalog (dbAddAnswer db sid a).2 := by
  unfold dbAddAnswer
  by_cases hv : isValidObjectId sid = true
  · rw [hv]
    simp only [Bool.not_true, Bool.false_eq_true, if_false, hlk]
    intro p hp
    rcases mem_dbUpdateFirst hp with h | ⟨v, hvlk, rfl⟩
    · exact hinv p h
    · have hvs : v = session := by
        rw [hvlk] at hlk
        injection hlk
      subst hvs
      have hmem := dbLookup_mem hvlk
      obtain ⟨hvalid, hwf, hscore⟩ := hinv _ hmem
      refine ⟨hvalid, ?_, ?_⟩
      · refine ⟨?_, ?_⟩
        · simp only [List.map_append, List.map_cons, List.map_nil]
          rw [List.nodup_append]
          refine ⟨hwf.1, List.nodup_singleton _, ?_⟩
          intro x hx hx1
          simp only [List.mem_singleton] at hx1
          subst hx1
          exact hfresh hx
        · intro b hb
          rcases List.mem_append.mp hb with hb | hb
          · exact hwf.2 b hb
          · simp only [List.mem_singleton] at hb
            subst hb
            exact ⟨h0, hq⟩
      · exact hscore
  · simp only [Bool.not_eq_true] at hv
    rw [hv]
    simpa using hinv

lemma DBInv_dbCompleteSession {catalog : Catalog} {db : DB} (sid : String)
    (score : Rat) (now : Nat)
    (hinv : DBInv catalog db) :
    DBInv catalog (dbCompleteSession db sid score now).2 := by
  unfold dbCompleteSession
  by_cases hv : isValidObjectId sid = true
  · rw [hv]
    simp only [Bool.not_true, Bool.false_eq_true, if_false]
    cases hlk : dbLookup db sid with
    | none => simpa using hinv
    | some s =>
      intro p hp
      simp only at hp
      rcases mem_dbUpdateFirst hp with h | ⟨v, hvlk, rfl⟩
      · exact hinv p h
      · have hmem := dbLookup_mem hvlk
        obtain ⟨hvalid, hwf, _⟩ := hinv _ hmem
        refine ⟨hvalid, hwf, ?_, ?_⟩
        · intro h
          simp [completedDoc] at h
        · intro _
          simp [completedDoc]
  · simp only [Bool.not_eq_true] at hv
    rw [hv]
    simpa using hinv

lemma DBInv_start {catalog : Catalog} {db : DB}
    (hinv : DBInv catalog db) (avail : Bool) (newId : String) (now : Nat)
    (req : StartSessionRequest) (hval : isValidObjectId newId = true) :
    DBInv catalog (start_session avail catalog db newId now req).2 := by
  unfold start_session
  cases hq : getQuiz avail catalog req.quiz_id with
  | error e => exact hinv
  | ok oquiz =>
    cases oquiz with
    | none => exact hinv
    | some quiz =>
      intro p hp
      simp only [dbCreateSession] at hp
      rcases List.mem_append.mp hp with h | h
      · exact hinv p h
      · simp only [List.mem_singleton] at h
        subst h
        refine ⟨hval, ⟨?_, ?_⟩, ?_, ?_⟩
        · simp [newSessionDoc]
        · intro a ha
          simp [newSessionDoc] at ha
        · intro _
          simp [newSessionDoc]
        · intro hst
          simp [newSessionDoc] at hst

lemma DBInv_submit {catalog : Catalog} {db : DB}
    (hinv : DBInv catalog db) (avail dbOk : Bool) (sid : String) (now : Nat)
    (req : SubmitAnswerRequest) :
    DBInv catalog (submit_answer avail dbOk catalog db sid now req).2 := by
  unfold submit_answer
  cases hget : dbGetSession dbOk db sid with
  | error e => exact hinv
  | ok osession =>
    cases osession with
    | none => exact hinv
    | some session =>
      dsimp only
      by_cases hst : session.status = SessionStatus.in_progress
      · rw [if_neg fun hne => hne hst]
        cases hquiz : getQuiz avail catalog session.quiz_id with
        | error e => exact hinv
        | ok oquiz =>
          cases oquiz with
          | none => exact hinv
          | some quiz =>
            dsimp only
            by_cases hidx : req.question_index < 0 ∨
                (quiz.questions.length : Int) ≤ req.question_index
            · rw [if_pos hidx]
              exact hinv
            · rw [if_neg hidx]
              by_cases hdup :
                  (session.answers.any fun a => a.question_index == req.question_index) = true
              · rw [if_pos hdup]
                exact hinv
              · rw [if_neg hdup]
                cases hqq : quiz.questions[req.question_index.toNat]? with
                | none => exact hinv
                | some question =>
                  dsimp only
                  obtain ⟨hOk, hvalid, hlk⟩ := dbGetSession_ok_some hget
                  push_neg at hidx
                  have hkey : DBInv catalog
                      (dbAddAnswer db sid
                        { question_index := req.question_index
                          user_answer := req.user_answer
                          is_correct := normalize req.user_answer ==
                            normalize (pyStr question.correct_answer)
                          answered_at := now }).2 := by
                    refine DBInv_dbAddAnswer hinv hlk ?_ hidx.1 ?_
                    · intro hmem
                      rcases List.mem_map.mp hmem with ⟨b, hbmem, hbeq⟩
                      have : (session.answers.any
                          fun a => a.question_index == req.question_index) = true := by
                        rw [List.any_eq_true]
                        exact ⟨b, hbmem, by simp [hbeq]⟩
                      exact hdup this
                    · obtain ⟨havail, hcat⟩ := getQuiz_ok_some hquiz
                      exact ⟨quiz, hcat, hidx.2⟩
                  cases hre : dbGetSession dbOk
                      (dbAddAnswer db sid
                        { question_index := req.question_index
                          user_answer := req.user_answer
                          is_correct := normalize req.user_answer ==
                            normalize (pyStr question.correct_answer)
                          answered_at := now }).2 sid with
                  | error e => exact hkey
                  | ok oupd =>
                    cases oupd with
                    | none => exact hkey
                    | some updated => exact hkey
      · rw [if_pos hst]
        exact hinv

lemma DBInv_complete {catalog : Catalog} {db : DB}
    (hinv : DBInv catalog db) (avail dbOk : Bool) (sid : String) (nowDb nowResp : Nat) :
    DBInv catalog (complete_session avail dbOk catalog db sid nowDb nowResp).2 := by
  unfold complete_session
  cases hget : dbGetSession dbOk db sid with
  | error e => exact hinv
  | ok osession =>
    cases osession with
    | none => exact hinv
    | some session =>
      dsimp only
      by_cases hst : session.status = SessionStatus.in_progress
      · rw [if_neg fun hne => hne hst]
        have hkey := DBInv_dbCompleteSession sid (calculate_score session.answers) nowDb hinv
        by_cases happ : (dbCompleteSession db sid (calculate_score session.answers) nowDb).1 = false
        · rw [if_pos happ]
          exact hkey
        · rw [if_neg happ]
          cases hquiz : getQuiz avail catalog session.quiz_id with
          | error e => exact hkey
          | ok mq => exact hkey
      · rw [if_pos hst]
        exact hinv

/-- Every store reachable through the engine operations satisfies the
invariant. -/
lemma reachable_DBInv {catalog : Catalog} {db : DB} (h : Reachable catalog db) :
    DBInv catalog db := by
  induction h with
  | init => intro p hp; simp at hp
  | start db avail newId now req _ hval _ ih => exact DBInv_start ih avail newId now req hval
  | submit db avail dbOk sid now req _ ih => exact DBInv_submit ih avail dbOk sid now req
  | complete db avail dbOk sid nowDb nowResp _ ih =>
    exact DBInv_complete ih avail dbOk sid nowDb nowResp

/-! Shape of the store state produced by each engine operation, and frame
lemmas showing completed sessions are never touched again. -/

lemma dbLookup_dbAddAnswer_ne {db : DB} {sid sid2 : String} (a : Answer)
    (h : sid ≠ sid2) :
    dbLookup (dbAddAnswer db sid2 a).2 sid = dbLookup db sid := by
  unfold dbAddAnswer
  by_cases hv : isValidObjectId sid2 = true
  · rw [hv]
    simp only [Bool.not_true, Bool.false_eq_true, if_false]
    cases hlk : dbLookup db sid2 with
    | none => rfl
    | some s => exact dbLookup_updateFirst_ne db _ h
  · simp only [Bool.not_eq_true] at hv
    rw [hv]
    rfl

lemma dbLookup_dbCompleteSession_ne {db : DB} {sid sid2 : String} (score : Rat) (now : Nat)
    (h : sid ≠ sid2) :
    dbLookup (dbCompleteSession db sid2 score now).2 sid = dbLookup db sid := by
  unfold dbCompleteSession
  by_cases hv : isValidObjectId sid2 = true
  · rw [hv]
    simp only [Bool.not_true, Bool.false_eq_true, if_false]
    cases hlk : dbLookup db sid2 with
    | none => rfl
    | some s => exact dbLookup_updateFirst_ne db _ h
  · simp only [Bool.not_eq_true] at hv
    rw [hv]
    rfl

lemma start_session_snd (avail : Bool) (catalog : Catalog) (db : DB) (newId : String)
    (now : Nat) (req : StartSessionRequest) :
    (start_session avail catalog db newId now req).2 = db ∨
    ∃ q, catalog req.quiz_id = some q ∧
      (start_session avail catalog db newId now req).2 =
        db ++ [(newId, { newSessionDoc req q.book_id now with id := some newId })] := by
  unfold start_session
  cases hq : getQuiz avail catalog req.quiz_id with
  | error e => exact Or.inl rfl
  | ok oquiz =>
    cases oquiz with
    | none => exact Or.inl rfl
    | some quiz =>
      right
      exact ⟨quiz, (getQuiz_ok_some hq).2, rfl⟩

lemma submit_answer_snd (avail dbOk : Bool) (catalog : Catalog) (db : DB) (sid : String)
    (now : Nat) (req : SubmitAnswerRequest) :
    (submit_answer avail dbOk catalog db sid now req).2 = db ∨
    ∃ session a, dbGetSession dbOk db sid = .ok (some session) ∧
      session.status = SessionStatus.in_progress ∧
      (submit_answer avail dbOk catalog db sid now req).2 = (dbAddAnswer db sid a).2 := by
  unfold submit_answer
  cases hget : dbGetSession dbOk db sid with
  | error e => exact Or.inl rfl
  | ok osession =>
    cases osession with
    | none => exact Or.inl rfl
    | some session =>
      dsimp only
      by_cases hst : session.status = SessionStatus.in_progress
      · rw [if_neg fun hne => hne hst]
        cases hquiz : getQuiz avail catalog session.quiz_id with
        | error e => exact Or.inl rfl
        | ok oquiz =>
          cases oquiz with
          | none => exact Or.inl rfl
          | some quiz =>
            dsimp only
            by_cases hidx : req.question_index < 0 ∨
                (quiz.questions.length : Int) ≤ req.question_index
            · rw [if_pos hidx]
              exact Or.inl rfl
            · rw [if_neg hidx]
              by_cases hdup :
                  (session.answers.any fun a => a.question_index == req.question_index) = true
              · rw [if_pos hdup]
                exact Or.inl rfl
              · rw [if_neg hdup]
                cases hqq : quiz.questions[req.question_index.toNat]? with
                | none => exact Or.inl rfl
                | some question =>
                  dsimp only
                  refine Or.inr ⟨session,
                    { question_index := req.question_index
                      user_answer := req.user_answer
                      is_correct := normalize req.user_answer ==
                        normalize (pyStr question.correct_answer)
                      answered_at := now }, rfl, hst, ?_⟩
                  cases hre : dbGetSession dbOk
                      (dbAddAnswer db sid
                        { question_index := req.question_index
                          user_answer := req.user_answer
                          is_correct := normalize req.user_answer ==
                            normalize (pyStr question.correct_answer)
                          answered_at := now }).2 sid with
                  | error e => rfl
                  | ok oupd =>
                    cases oupd with
                    | none => rfl
                    | some updated => rfl
      · rw [if_pos hst]
        exact Or.inl rfl

lemma complete_session_snd (avail dbOk : Bool) (catalog : Catalog) (db : DB) (sid : String)
    (nowDb nowResp : Nat) :
    (complete_session avail dbOk catalog db sid nowDb nowResp).2 = db ∨
    ∃ session, dbGetSession dbOk db sid = .ok (some session) ∧
      session.status = SessionStatus.in_progress ∧
      (complete_session avail dbOk catalog db sid nowDb nowResp).2 =
        (dbCompleteSession db sid (calculate_score session.answers) nowDb).2 := by
  unfold complete_session
  cases hget : dbGetSession dbOk db sid with
  | error e => exact Or.inl rfl
  | ok osession =>
    cases osession with
    | none => exact Or.inl rfl
    | some session =>
      dsimp only
      by_cases hst : session.status = SessionStatus.in_progress
      · rw [if_neg fun hne => hne hst]
        refine Or.inr ⟨session, rfl, hst, ?_⟩
        by_cases happ : (dbCompleteSession db sid (calculate_score session.answers) nowDb).1 = false
        · rw [if_pos happ]
        · rw [if_neg happ]
          cases hquiz : getQuiz avail catalog session.quiz_id with
          | error e => rfl
          | ok mq => rfl
      · rw [if_pos hst]
        exact Or.inl rfl

lemma start_preserves_session {catalog : Catalog} {db : DB} {sid : String} {s : QuizSession}
    (avail : Bool) (newId : String) (now : Nat) (req : StartSessionRequest)
    (hlk : dbLookup db sid = some s) :
    dbLookup (start_session avail catalog db newId now req).2 sid = some s := by
  rcases start_session_snd avail catalog db newId now req with h | ⟨q, _, h⟩
  · rw [h, hlk]
  · rw [h]
    exact dbLookup_append_some _ hlk

lemma submit_preserves_completed {catalog : Catalog} {db : DB} {sid : String} {s : QuizSession}
    (avail dbOk : Bool) (sid2 : String) (now : Nat) (req : SubmitAnswerRequest)
    (hlk : dbLookup db sid = some s) (hst : s.status = SessionStatus.completed) :
    dbLookup (submit_answer avail dbOk catalog db sid2 now req).2 sid = some s := by
  rcases submit_answer_snd avail dbOk catalog db sid2 now req with h | ⟨session, a, hget, hstp, h⟩
  · rw [h, hlk]
  · by_cases hss : sid = sid2
    · subst hss
      obtain ⟨_, _, hlk2⟩ := dbGetSession_ok_some hget
      rw [hlk] at hlk2
      obtain rfl : s = session := by injection hlk2
      rw [hst] at hstp
      cases hstp
    · rw [h, dbLookup_dbAddAnswer_ne a hss, hlk]

lemma complete_preserves_completed {catalog : Catalog} {db : DB} {sid : String} {s : QuizSession}
    (avail dbOk : Bool) (sid2 : String) (nowDb nowResp : Nat)
    (hlk : dbLookup db sid = some s) (hst : s.status = SessionStatus.completed) :
    dbLookup (complete_session avail dbOk catalog db sid2 nowDb nowResp).2 sid = some s := by
  rcases complete_session_snd avail dbOk catalog db sid2 nowDb nowResp with h | ⟨session, hget, hstp, h⟩
  · rw [h, hlk]
  · by_cases hss : sid = sid2
    · subst hss
      obtain ⟨_, _, hlk2⟩ := dbGetSession_ok_some hget
      rw [hlk] at hlk2
      obtain rfl : s = session := by injection hlk2
      rw [hst] at hstp
      cases hstp
    · rw [h, dbLookup_dbCompleteSession_ne _ _ hss, hlk]

/-! Claim theorems. -/

/-- Claim C3: the score function is a pure function of the answer collection;
it returns exactly 0 for the empty collection, the fraction of correct answers
times 100 for every non-empty collection, and its result always lies between
0 and 100. -/
theorem calculate_score_spec :
    calculate_score [] = 0 ∧
    (∀ answers : List Answer, answers ≠ [] →
      calculate_score answers =
        ((answers.countP fun a => a.is_correct : Nat) : Rat) /
          ((answers.length : Nat) : Rat) * 100) ∧
    (∀ answers : List Answer,
      0 ≤ calculate_score answers ∧ calculate_score answers ≤ 100) := by
  refine ⟨rfl, ?_, ?_⟩
  · intro answers h
    rw [calculate_score, if_neg]
    simp [h]
  · intro answers
    rw [calculate_score]
    by_cases h : answers.isEmpty = true
    · rw [if_pos h]
      norm_num
    · rw [if_neg h]
      have hne : answers ≠ [] := by simpa [List.isEmpty_iff] using h
      have hn : 0 < ((answers.length : Nat) : Rat) := by
        have := List.length_pos.mpr hne
        exact_mod_cast this
      constructor
      · positivity
      · have hle : ((answers.countP fun a => a.is_correct : Nat) : Rat) ≤
            ((answers.length : Nat) : Rat) := by
          exact_mod_cast List.countP_le_length _
        have hdiv : ((answers.countP fun a => a.is_correct : Nat) : Rat) /
            ((answers.length : Nat) : Rat) ≤ 1 := by
          rw [div_le_one hn]
          exact hle
        calc ((answers.countP fun a => a.is_correct : Nat) : Rat) /
              ((answers.length : Nat) : Rat) * 100 ≤ 1 * 100 :=
            mul_le_mul_of_nonneg_right hdiv (by norm_num)
          _ = 100 := by norm_num

/-- Witness for C3 at the one-element correct-answer collection. -/
theorem calculate_score_spec_witness :
    calculate_score exSession2.answers =
      ((exSession2.answers.countP fun a => a.is_correct : Nat) : Rat) /
        ((exSession2.answers.length : Nat) : Rat) * 100 :=
  calculate_score_spec.2.1 exSession2.answers (by decide)

/-- Claim C8: when the quiz provider is reachable but does not resolve the
requested quiz id, start_session fails with the quiz-not-found error and the
store is unchanged (no session record is created). -/
theorem start_session_quiz_not_found :
    ∀ (catalog : Catalog) (db : DB) (newId : String) (now : Nat)
      (req : StartSessionRequest),
      catalog req.quiz_id = none →
      start_session true catalog db newId now req =
        (.error (.quizNotFound req.quiz_id), db) := by
  intro catalog db newId now req h
  have hq : getQuiz true catalog req.quiz_id = .ok none := by
    unfold getQuiz
    rw [h]
    rfl
  unfold start_session
  rw [hq]

/-- Witness for C8: starting against exCatalog with an unresolvable quiz id. -/
theorem start_session_quiz_not_found_witness :
    start_session true exCatalog exDb2 exSid2 5 exStartReqMissing =
      (.error (.quizNotFound "missing-quiz"), exDb2) :=
  start_session_quiz_not_found exCatalog exDb2 exSid2 5 exStartReqMissing (by decide)

/-- Claim C10: for a session-identifier string that is not a valid ObjectId,
the store fetch returns absent (it does not raise, whatever the store
availability), and submit-answer, get-status and complete-session all fail
with the session-not-found error, never a store error. -/
theorem invalid_object_id_session_not_found :
    ∀ sid : String, isValidObjectId sid = false →
      ∀ (avail dbOk : Bool) (catalog : Catalog) (db : DB)
        (now nowDb nowResp : Nat) (req : SubmitAnswerRequest),
        dbGetSession dbOk db sid = .ok none ∧
        submit_answer avail dbOk catalog db sid now req =
          (.error (.sessionNotFound sid), db) ∧
        get_session_status avail dbOk catalog db sid = .error (.sessionNotFound sid) ∧
        complete_session avail dbOk catalog db sid nowDb nowResp =
          (.error (.sessionNotFound sid), db) := by
  intro sid h avail dbOk catalog db now nowDb nowResp req
  have hg : dbGetSession dbOk db sid = .ok none := by
    unfold dbGetSession
    rw [h]
    rfl
  refine ⟨hg, ?_, ?_, ?_⟩
  · unfold submit_answer
    rw [hg]
  · unfold get_session_status
    rw [hg]
  · unfold complete_session
    rw [hg]

/-- Witness for C10 at the invalid identifier string used by the repository's
tests. -/
theorem invalid_object_id_session_not_found_witness :
    dbGetSession false exDb2 "invalid-object-id" = .ok none ∧
    submit_answer true false exCatalog exDb2 "invalid-object-id" 4 exSubmitReq =
      (.error (.sessionNotFound "invalid-object-id"), exDb2) ∧
    get_session_status true false exCatalog exDb2 "invalid-object-id" =
      .error (.sessionNotFound "invalid-object-id") ∧
    complete_session true false exCatalog exDb2 "invalid-object-id" 4 5 =
      (.error (.sessionNotFound "invalid-object-id"), exDb2) :=
  invalid_object_id_session_not_found "invalid-object-id" (by decide)
    true false exCatalog exDb2 4 4 5 exSubmitReq

/-- Claim C1 counterexample: the store's completion update is not guarded by
the session's status — completing a session that is already completed (hence
not in_progress) still reports applied = true. -/
theorem db_complete_session_ignores_status :
    dbLookup exDbCompleted exSid = some exCompletedSession ∧
    exCompletedSession.status ≠ SessionStatus.in_progress ∧
    (dbCompleteSession exDbCompleted exSid 50 99).1 = true :=
  ⟨by decide, by decide, by decide⟩

/-- Claim C1 (amended): the store's completion update reports applied = false
exactly when the id is invalid, no session with that id exists, or the set
clause changes nothing; it applies regardless of the session's status when a
document matches.  Exclusion of a second, sequenced completion is enforced
only by the service's separate status pre-check, which fails it with the
session-not-active error. -/
theorem db_complete_session_applied_iff :
    (∀ (db : DB) (sid : String) (score : Rat) (now : Nat),
      isValidObjectId sid = false ∨ dbLookup db sid = none →
      (dbCompleteSession db sid score now).1 = false) ∧
    (∀ (db : DB) (sid : String) (score : Rat) (now : Nat) (s : QuizSession),
      isValidObjectId sid = true → dbLookup db sid = some s →
      ((dbCompleteSession db sid score now).1 = true ↔ completedDoc s score now ≠ s)) ∧
    (∀ (avail dbOk : Bool) (catalog : Catalog) (db : DB) (sid : String)
        (nowDb nowResp : Nat) (s : QuizSession),
      dbGetSession dbOk db sid = .ok (some s) →
      s.status ≠ SessionStatus.in_progress →
      complete_session avail dbOk catalog db sid nowDb nowResp =
        (.error (.sessionNotActive sid), db)) := by
  refine ⟨?_, ?_, ?_⟩
  · intro db sid score now h
    unfold dbCompleteSession
    rcases h with h | h
    · rw [h]
      rfl
    · by_cases hv : isValidObjectId sid = true
      · rw [hv, h]
        rfl
      · simp only [Bool.not_eq_true] at hv
        rw [hv]
        rfl
  · intro db sid score now s hv hlk
    unfold dbCompleteSession
    rw [hv, hlk]
    simp only [Bool.not_true, Bool.false_eq_true, if_false]
    by_cases h : completedDoc s score now = s
    · rw [if_pos h]
      simp [h]
    · rw [if_neg h]
      simp [h]
  · intro avail dbOk catalog db sid nowDb nowResp s hget hst
    unfold complete_session
    rw [hget]
    dsimp only
    rw [if_pos hst]

/-- Witness for C1 (amended): a not-found id yields applied = false; the
already-completed example session yields applied = true; completing it
through the service fails with the session-not-active error. -/
theorem db_complete_session_applied_iff_witness :
    (dbCompleteSession exDbCompleted exSid2 50 99).1 = false ∧
    (dbCompleteSession exDbCompleted exSid 50 99).1 = true ∧
    complete_session true true exCatalog exDbCompleted exSid 7 8 =
      (.error (.sessionNotActive exSid), exDbCompleted) :=
  ⟨db_complete_session_applied_iff.1 exDbCompleted exSid2 50 99 (Or.inr (by decide)),
   (db_complete_session_applied_iff.2.1 exDbCompleted exSid 50 99 exCompletedSession
      (by decide) (by decide)).mpr (by decide),
   db_complete_session_applied_iff.2.2 true true exCatalog exDbCompleted exSid 7 8
      exCompletedSession rfl (by decide)⟩

/-- Claim C2 counterexample: for an existing session, get-status does not
succeed with total_questions = 0 when the catalog provider is unreachable — it
fails with the wrapped upstream error instead. -/
theorem get_status_fails_when_catalog_unreachable :
    dbLookup exDb2 exSid = some exSession2 ∧
    get_session_status false true exCatalog exDb2 exSid =
      .error .upstreamUnavailable :=
  ⟨by decide, rfl⟩

/-- Claim C2 (amended): get-status degrades total_questions to 0 only when the
provider is reachable and reports the quiz absent; when the provider is
unreachable or erroring, get-status fails rather than degrading. -/
theorem get_status_degrades_only_on_absent_quiz :
    (∀ (dbOk : Bool) (catalog : Catalog) (db : DB) (sid : String)
        (session : QuizSession),
      dbGetSession dbOk db sid = .ok (some session) →
      catalog session.quiz_id = none →
      get_session_status true dbOk catalog db sid =
        .ok { session_id := sid
              quiz_id := session.quiz_id
              book_id := session.book_id
              status := session.status
              score := session.score.getD (calculate_score session.answers)
              questions_answered := session.answers.length
              total_questions := 0
              started_at := session.started_at
              completed_at := session.completed_at }) ∧
    (∀ (dbOk : Bool) (catalog : Catalog) (db : DB) (sid : String)
        (session : QuizSession),
      dbGetSession dbOk db sid = .ok (some session) →
      get_session_status false dbOk catalog db sid = .error .upstreamUnavailable) := by
  constructor
  · intro dbOk catalog db sid session hget hcat
    have hq : getQuiz true catalog session.quiz_id = .ok none := by
      unfold getQuiz
      rw [hcat]
      rfl
    unfold get_session_status
    rw [hget]
    dsimp only
    rw [hq]
    rfl
  · intro dbOk catalog db sid session hget
    unfold get_session_status
    rw [hget]
    rfl

/-- Witness for C2 (amended): a session whose quiz id is absent from the
catalog gets a successful degraded status with total_questions = 0; the same
store with the provider down gets the upstream error. -/
theorem get_status_degrades_only_on_absent_quiz_witness :
    get_session_status true true exCatalog exDbBadQuiz exSid =
      .ok { session_id := exSid
            quiz_id := "missing-quiz"
            book_id := "book-1"
            status := .in_progress
            score := calculate_score []
            questions_answered := 0
            total_questions := 0
            started_at := 0
            completed_at := none } ∧
    get_session_status false true exCatalog exDb2 exSid = .error .upstreamUnavailable := by
  constructor
  · have h := get_status_degrades_only_on_absent_quiz.1 true exCatalog exDbBadQuiz exSid
      { exSession2 with quiz_id := "missing-quiz", answers := [] } rfl (by decide)
    simpa using h
  · exact get_status_degrades_only_on_absent_quiz.2 true exCatalog exDb2 exSid
      exSession2 rfl

/-- Inversion of a successful answer submission: every guard passed, the
answer was appended to the stored session, and the response was built from
the post-append state re-fetched from the store. -/
lemma submit_answer_ok_inv {avail dbOk : Bool} {catalog : Catalog} {db : DB} {sid : String}
    {now : Nat} {req : SubmitAnswerRequest} {resp : SubmitAnswerResponse} {db2 : DB}
    (h : submit_answer avail dbOk catalog db sid now req = (.ok resp, db2)) :
    ∃ session quiz question,
      dbLookup db sid = some session ∧
      session.status = SessionStatus.in_progress ∧
      catalog session.quiz_id = some quiz ∧
      0 ≤ req.question_index ∧
      req.question_index < (quiz.questions.length : Int) ∧
      (session.answers.any fun a => a.question_index == req.question_index) = false ∧
      quiz.questions[req.question_index.toNat]? = some question ∧
      db2 = dbUpdateFirst db sid (fun t => { t with answers := t.answers ++
        [({ question_index := req.question_index,
            user_answer := req.user_answer,
            is_correct := normalize req.user_answer == normalize (pyStr question.correct_answer),
            answered_at := now } : Answer)] }) ∧
      resp = { is_correct := normalize req.user_answer ==
                 normalize (pyStr question.correct_answer),
               correct_answer := pyStr question.correct_answer,
               explanation := question.explanation,
               current_score := calculate_score (session.answers ++
                 [({ question_index := req.question_index,
                     user_answer := req.user_answer,
                     is_correct := normalize req.user_answer ==
                       normalize (pyStr question.correct_answer),
                     answered_at := now } : Answer)]),
               questions_answered := (session.answers ++
                 [({ question_index := req.question_index,
                     user_answer := req.user_answer,
                     is_correct := normalize req.user_answer ==
                       normalize (pyStr question.correct_answer),
                     answered_at := now } : Answer)]).length,
               total_questions := quiz.questions.length } := by
  unfold submit_answer at h
  cases hget : dbGetSession dbOk db sid with
  | error e =>
    rw [hget] at h
    simp at h
  | ok osession =>
    cases osession with
    | none =>
      rw [hget] at h
      simp at h
    | some session =>
      rw [hget] at h
      dsimp only at h
      by_cases hst : session.status = SessionStatus.in_progress
      · rw [if_neg fun hne => hne hst] at h
        cases hquiz : getQuiz avail catalog session.quiz_id with
        | error e =>
          rw [hquiz] at h
          simp at h
        | ok oquiz =>
          cases oquiz with
          | none =>
            rw [hquiz] at h
            simp at h
          | some quiz =>
            rw [hquiz] at h
            dsimp only at h
            by_cases hidx : req.question_index < 0 ∨
                (quiz.questions.length : Int) ≤ req.question_index
            · rw [if_pos hidx] at h
              simp at h
            · rw [if_neg hidx] at h
              by_cases hdup :
                  (session.answers.any fun a => a.question_index == req.question_index) = true
              · rw [if_pos hdup] at h
                simp at h
              · rw [if_neg hdup] at h
                cases hqq : quiz.questions[req.question_index.toNat]? with
                | none =>
                  rw [hqq] at h
                  simp at h
                | some question =>
                  rw [hqq] at h
                  dsimp only at h
                  obtain ⟨hOk, hvalid, hlk⟩ := dbGetSession_ok_some hget
                  rw [dbAddAnswer_of_found _ hvalid hlk] at h
                  dsimp only at h
                  rw [hOk, dbGetSession_of_facts rfl hvalid,
                    dbLookup_updateFirst_self, hlk] at h
                  simp only [Option.map_some'] at h
                  rw [Prod.ext_iff] at h
                  obtain ⟨h1, h2⟩ := h
                  rw [Except.ok.injEq] at h1
                  push_neg at hidx
                  refine ⟨session, quiz, question, hlk, hst, (getQuiz_ok_some hquiz).2,
                    hidx.1, hidx.2, Bool.not_eq_true _ ▸ hdup, hqq, h2.symm, ?_⟩
                  exact h1.symm
      · rw [if_pos hst] at h
        simp at h

/-- Claim C4: whenever an answer submission succeeds, its correctness verdict
is true exactly when the submitted text and the question's canonical correct
answer — converted to text for boolean answers, stripped of surrounding
whitespace and lower-cased — are equal strings; the rule does not depend on
the question's type. -/
theorem submit_answer_verdict :
    ∀ (avail dbOk : Bool) (catalog : Catalog) (db : DB) (sid : String) (now : Nat)
      (req : SubmitAnswerRequest) (resp : SubmitAnswerResponse) (db2 : DB),
      submit_answer avail dbOk catalog db sid now req = (.ok resp, db2) →
      ∃ session quiz question,
        dbLookup db sid = some session ∧
        catalog session.quiz_id = some quiz ∧
        quiz.questions[req.question_index.toNat]? = some question ∧
        (resp.is_correct = true ↔
          normalize req.user_answer = normalize (pyStr question.correct_answer)) := by
  intro avail dbOk catalog db sid now req resp db2 h
  obtain ⟨session, quiz, question, hlk, hst, hcat, h0, hlen, hdup, hqq, hdb, hresp⟩ :=
    submit_answer_ok_inv h
  refine ⟨session, quiz, question, hlk, hcat, hqq, ?_⟩
  subst hresp
  exact beq_iff_eq

/-- Witness for C4 at the example submission (answer text " ROME " against
correct answer "Rome"). -/
theorem submit_answer_verdict_witness :
    ∃ session quiz question,
      dbLookup exDb1 exSid = some session ∧
      exCatalog session.quiz_id = some quiz ∧
      quiz.questions[exSubmitReq.question_index.toNat]? = some question ∧
      (exSubmitResp.is_correct = true ↔
        normalize exSubmitReq.user_answer = normalize (pyStr question.correct_answer)) :=
  submit_answer_verdict true true exCatalog exDb1 exSid 1 exSubmitReq exSubmitResp exDb2 rfl

/-- Claim C5: a successful answer submission responds with the score
recomputed by the shared score function over the post-append answer set
re-fetched from the store (including the just-added answer), the post-append
answer count, the question's canonical correct answer as text, its
explanation, and the total question count. -/
theorem submit_answer_result_fields :
    ∀ (avail dbOk : Bool) (catalog : Catalog) (db : DB) (sid : String) (now : Nat)
      (req : SubmitAnswerRequest) (resp : SubmitAnswerResponse) (db2 : DB),
      submit_answer avail dbOk catalog db sid now req = (.ok resp, db2) →
      ∃ session quiz question updated,
        dbLookup db sid = some session ∧
        catalog session.quiz_id = some quiz ∧
        quiz.questions[req.question_index.toNat]? = some question ∧
        dbLookup db2 sid = some updated ∧
        updated.answers = session.answers ++
          [{ question_index := req.question_index,
             user_answer := req.user_answer,
             is_correct := resp.is_correct,
             answered_at := now }] ∧
        resp.current_score = calculate_score updated.answers ∧
        resp.questions_answered = updated.answers.length ∧
        resp.correct_answer = pyStr question.correct_answer ∧
        resp.explanation = question.explanation ∧
        resp.total_questions = quiz.questions.length := by
  intro avail dbOk catalog db sid now req resp db2 h
  obtain ⟨session, quiz, question, hlk, hst, hcat, h0, hlen, hdup, hqq, hdb, hresp⟩ :=
    submit_answer_ok_inv h
  refine ⟨session, quiz, question,
    { session with answers := session.answers ++
      [{ question_index := req.question_index,
         user_answer := req.user_answer,
         is_correct := normalize req.user_answer == normalize (pyStr question.correct_answer),
         answered_at := now }] },
    hlk, hcat, hqq, ?_, ?_, ?_, ?_, ?_, ?_, ?_⟩
  · subst hdb
    rw [dbLookup_updateFirst_self, hlk]
    rfl
  · subst hresp
    rfl
  · subst hresp
    rfl
  · subst hresp
    rfl
  · subst hresp
    rfl
  · subst hresp
    rfl
  · subst hresp
    rfl

/-- Witness for C5 at the example submission. -/
theorem submit_answer_result_fields_witness :
    ∃ session quiz question updated,
      dbLookup exDb1 exSid = some session ∧
      exCatalog session.quiz_id = some quiz ∧
      quiz.questions[exSubmitReq.question_index.toNat]? = some question ∧
      dbLookup exDb2 exSid = some updated ∧
      updated.answers = session.answers ++
        [{ question_index := exSubmitReq.question_index,
           user_answer := exSubmitReq.user_answer,
           is_correct := exSubmitResp.is_correct,
           answered_at := 1 }] ∧
      exSubmitResp.current_score = calculate_score updated.answers ∧
      exSubmitResp.questions_answered = updated.answers.length ∧
      exSubmitResp.correct_answer = pyStr question.correct_answer ∧
      exSubmitResp.explanation = question.explanation ∧
      exSubmitResp.total_questions = quiz.questions.length :=
  submit_answer_result_fields true true exCatalog exDb1 exSid 1 exSubmitReq exSubmitResp exDb2 rfl

/-- Claim C7: submit-answer checks its preconditions in order — session
exists, session in progress, quiz resolves (with distinct not-found and
upstream failures), index in range, index not already answered — and the
first violated precondition decides the returned failure. -/
theorem submit_answer_precondition_order :
    ∀ (catalog : Catalog) (db : DB) (sid : String) (now : Nat)
      (req : SubmitAnswerRequest),
      (∀ avail : Bool, dbGetSession true db sid = .ok none →
        submit_answer avail true catalog db sid now req =
          (.error (.sessionNotFound sid), db)) ∧
      (∀ (avail : Bool) (session : QuizSession),
        dbGetSession true db sid = .ok (some session) →
        session.status ≠ SessionStatus.in_progress →
        submit_answer avail true catalog db sid now req =
          (.error (.sessionNotActive sid), db)) ∧
      (∀ session : QuizSession,
        dbGetSession true db sid = .ok (some session) →
        session.status = SessionStatus.in_progress →
        submit_answer false true catalog db sid now req =
          (.error .upstreamUnavailable, db)) ∧
      (∀ session : QuizSession,
        dbGetSession true db sid = .ok (some session) →
        session.status = SessionStatus.in_progress →
        catalog session.quiz_id = none →
        submit_answer true true catalog db sid now req =
          (.error (.quizNotFound session.quiz_id), db)) ∧
      (∀ (session : QuizSession) (quiz : Quiz),
        dbGetSession true db sid = .ok (some session) →
        session.status = SessionStatus.in_progress →
        catalog session.quiz_id = some quiz →
        (req.question_index < 0 ∨ (quiz.questions.length : Int) ≤ req.question_index) →
        submit_answer true true catalog db sid now req =
          (.error (.invalidQuestionIndex req.question_index), db)) ∧
      (∀ (session : QuizSession) (quiz : Quiz),
        dbGetSession true db sid = .ok (some session) →
        session.status = SessionStatus.in_progress →
        catalog session.quiz_id = some quiz →
        ¬(req.question_index < 0 ∨ (quiz.questions.length : Int) ≤ req.question_index) →
        (∃ a ∈ session.answers, a.question_index = req.question_index) →
        submit_answer true true catalog db sid now req =
          (.error (.duplicateAnswer req.question_index), db)) := by
  intro catalog db sid now req
  refine ⟨?_, ?_, ?_, ?_, ?_, ?_⟩
  · intro avail hget
    unfold submit_answer
    rw [hget]
  · intro avail session hget hst
    unfold submit_answer
    rw [hget]
    dsimp only
    rw [if_pos hst]
  · intro session hget hst
    unfold submit_answer
    rw [hget]
    dsimp only
    rw [if_neg fun hne => hne hst]
    rfl
  · intro session hget hst hcat
    have hgq : getQuiz true catalog session.quiz_id = .ok none := by
      unfold getQuiz
      rw [hcat]
      rfl
    unfold submit_answer
    rw [hget]
    dsimp only
    rw [if_neg fun hne => hne hst, hgq]
  · intro session quiz hget hst hcat hidx
    have hgq : getQuiz true catalog session.quiz_id = .ok (some quiz) := by
      unfold getQuiz
      rw [hcat]
      rfl
    unfold submit_answer
    rw [hget]
    dsimp only
    rw [if_neg fun hne => hne hst, hgq]
    dsimp only
    rw [if_pos hidx]
  · intro session quiz hget hst hcat hidx hex
    obtain ⟨a, ha, haeq⟩ := hex
    have hgq : getQuiz true catalog session.quiz_id = .ok (some quiz) := by
      unfold getQuiz
      rw [hcat]
      rfl
    have hdup : (session.answers.any fun b => b.question_index == req.question_index) = true := by
      rw [List.any_eq_true]
      exact ⟨a, ha, by simp [haeq]⟩
    unfold submit_answer
    rw [hget]
    dsimp only
    rw [if_neg fun hne => hne hst, hgq]
    dsimp only
    rw [if_neg hidx, if_pos hdup]

/-- Witness for C7, exercising every precondition at concrete stores: an
absent id, a completed session, an unreachable provider, an unresolvable quiz
id, an out-of-range index, and a duplicate index. -/
theorem submit_answer_precondition_order_witness :
    submit_answer true true exCatalog exDb2 exSid2 4 exSubmitReq =
      (.error (.sessionNotFound exSid2), exDb2) ∧
    submit_answer true true exCatalog exDbCompleted exSid 4 exSubmitReq =
      (.error (.sessionNotActive exSid), exDbCompleted) ∧
    submit_answer false true exCatalog exDb2 exSid 4 exBadIdxReq =
      (.error .upstreamUnavailable, exDb2) ∧
    submit_answer true true exCatalog exDbBadQuiz exSid 4 exSubmitReq =
      (.error (.quizNotFound "missing-quiz"), exDbBadQuiz) ∧
    submit_answer true true exCatalog exDb1 exSid 4 exBadIdxReq =
      (.error (.invalidQuestionIndex 7), exDb1) ∧
    submit_answer true true exCatalog exDb2 exSid 4 exSubmitReq =
      (.error (.duplicateAnswer 0), exDb2) := by
  refine ⟨?_, ?_, ?_, ?_, ?_, ?_⟩
  · exact (submit_answer_precondition_order exCatalog exDb2 exSid2 4 exSubmitReq).1
      true rfl
  · exact (submit_answer_precondition_order exCatalog exDbCompleted exSid 4
      exSubmitReq).2.1 true exCompletedSession rfl (by decide)
  · exact (submit_answer_precondition_order exCatalog exDb2 exSid 4
      exBadIdxReq).2.2.1 exSession2 rfl (by decide)
  · exact (submit_answer_precondition_order exCatalog exDbBadQuiz exSid 4
      exSubmitReq).2.2.2.1 { exSession2 with quiz_id := "missing-quiz", answers := [] }
      rfl (by decide) (by decide)
  · exact (submit_answer_precondition_order exCatalog exDb1 exSid 4
      exBadIdxReq).2.2.2.2.1 { exSession2 with answers := [] } exQuiz rfl (by decide)
      (by decide) (Or.inr (by decide))
  · exact (submit_answer_precondition_order exCatalog exDb2 exSid 4
      exSubmitReq).2.2.2.2.2 exSession2 exQuiz rfl (by decide) (by decide) (by decide)
      ⟨{ question_index := 0, user_answer := " ROME ", is_correct := true, answered_at := 1 },
        by decide, by decide⟩

/-- Claim C6: in every reachable store, each session's answer collection has
pairwise-distinct question indices, every recorded index lies between 0 and
the question count of the session's catalog quiz, the number of answers never
exceeds that question count, and submitting to an already-answered index of an
active session fails with the duplicate-answer error leaving the store
unchanged. -/
theorem session_answers_unique_and_bounded :
    ∀ (catalog : Catalog) (db : DB), Reachable catalog db →
      ∀ (sid : String) (s : QuizSession), dbLookup db sid = some s →
        ((s.answers.map fun a => a.question_index).Nodup ∧
         (∀ a ∈ s.answers, 0 ≤ a.question_index ∧
            ∃ q, catalog s.quiz_id = some q ∧
              a.question_index < (q.questions.length : Int)) ∧
         (∀ q, catalog s.quiz_id = some q → s.answers.length ≤ q.questions.length)) ∧
        (∀ (now : Nat) (req : SubmitAnswerRequest) (a : Answer),
          a ∈ s.answers → a.question_index = req.question_index →
          s.status = SessionStatus.in_progress →
          submit_answer true true catalog db sid now req =
            (.error (.duplicateAnswer req.question_index), db)) := by
  intro catalog db hreach sid s hlk
  have hinv := reachable_DBInv hreach
  obtain ⟨hvalid, hwf, hscore⟩ := hinv _ (dbLookup_mem hlk)
  refine ⟨⟨hwf.1, hwf.2, ?_⟩, ?_⟩
  · intro q hq
    have hlen : (s.answers.map fun a => a.question_index).length ≤ q.questions.length := by
      apply nodup_int_range_length hwf.1
      intro x hx
      rcases List.mem_map.mp hx with ⟨a, ha, rfl⟩
      obtain ⟨h0, q', hq', hlt⟩ := hwf.2 a ha
      rw [hq] at hq'
      obtain rfl : q = q' := by injection hq'
      exact ⟨h0, hlt⟩
    simpa using hlen
  · intro now req a ha haeq hstat
    have hget : dbGetSession true db sid = .ok (some s) := by
      rw [dbGetSession_of_facts rfl hvalid, hlk]
    obtain ⟨h0, q, hq, hlt⟩ := hwf.2 a ha
    have hgq : getQuiz true catalog s.quiz_id = .ok (some q) := by
      unfold getQuiz
      rw [hq]
      rfl
    have hidx : ¬(req.question_index < 0 ∨
        (q.questions.length : Int) ≤ req.question_index) := by
      rw [not_or, not_lt, not_le, ← haeq]
      exact ⟨h0, hlt⟩
    have hdup : (s.answers.any fun b => b.question_index == req.question_index) = true := by
      rw [List.any_eq_true]
      exact ⟨a, ha, by simp [haeq]⟩
    unfold submit_answer
    rw [hget]
    dsimp only
    rw [if_neg fun hne => hne hstat, hgq]
    dsimp only
    rw [if_neg hidx, if_pos hdup]

/-- Witness for C6 at the reachable store holding the answered example
session. -/
theorem session_answers_unique_and_bounded_witness :
    (exSession2.answers.map fun a => a.question_index).Nodup ∧
    submit_answer true true exCatalog exDb2 exSid 9 exSubmitReq =
      (.error (.duplicateAnswer 0), exDb2) := by
  have hr1 : Reachable exCatalog exDb1 :=
    Reachable.start [] true exSid 0 exStartReq Reachable.init (by decide) (by decide)
  have hr2 : Reachable exCatalog exDb2 :=
    Reachable.submit exDb1 true true exSid 1 exSubmitReq hr1
  have h := session_answers_unique_and_bounded exCatalog exDb2 hr2 exSid exSession2 (by decide)
  refine ⟨h.1.1, ?_⟩
  exact h.2 9 exSubmitReq
    { question_index := 0, user_answer := " ROME ", is_correct := true, answered_at := 1 }
    (by decide) (by decide) (by decide)

/-- Claim C9: in every reachable store, a session has no score and no
completion time while in progress; once completed it has both, and no engine
operation applied to the store changes that session again. -/
theorem session_score_lifecycle :
    ∀ (catalog : Catalog) (db : DB), Reachable catalog db →
      ∀ (sid : String) (s : QuizSession), dbLookup db sid = some s →
        ((s.status = SessionStatus.in_progress → s.score = none ∧ s.completed_at = none) ∧
         (s.status = SessionStatus.completed → s.score ≠ none ∧ s.completed_at ≠ none)) ∧
        (s.status = SessionStatus.completed →
          (∀ (avail : Bool) (newId : String) (now : Nat) (req : StartSessionRequest),
            dbLookup (start_session avail catalog db newId now req).2 sid = some s) ∧
          (∀ (avail dbOk : Bool) (sid2 : String) (now : Nat) (req : SubmitAnswerRequest),
            dbLookup (submit_answer avail dbOk catalog db sid2 now req).2 sid = some s) ∧
          (∀ (avail dbOk : Bool) (sid2 : String) (nowDb nowResp : Nat),
            dbLookup (complete_session avail dbOk catalog db sid2 nowDb nowResp).2 sid =
              some s)) := by
  intro catalog db hreach sid s hlk
  have hinv := reachable_DBInv hreach
  obtain ⟨hvalid, hwf, hscore⟩ := hinv _ (dbLookup_mem hlk)
  refine ⟨hscore, ?_⟩
  intro hst
  refine ⟨?_, ?_, ?_⟩
  · intro avail newId now req
    exact start_preserves_session avail newId now req hlk
  · intro avail dbOk sid2 now req
    exact submit_preserves_completed avail dbOk sid2 now req hlk hst
  · intro avail dbOk sid2 nowDb nowResp
    exact complete_preserves_completed avail dbOk sid2 nowDb nowResp hlk hst

/-- Witness for C9 at the reachable store holding the completed example
session: score and completion time are set, and further submit or complete
calls leave the stored document unchanged. -/
theorem session_score_lifecycle_witness :
    (exSession3.score ≠ none ∧ exSession3.completed_at ≠ none) ∧
    dbLookup (complete_session true true exCatalog exDb3 exSid 9 10).2 exSid =
      some exSession3 ∧
    dbLookup (submit_answer true true exCatalog exDb3 exSid 11 exSubmitReq).2 exSid =
      some exSession3 := by
  have hr1 : Reachable exCatalog exDb1 :=
    Reachable.start [] true exSid 0 exStartReq Reachable.init (by decide) (by decide)
  have hr2 : Reachable exCatalog exDb2 :=
    Reachable.submit exDb1 true true exSid 1 exSubmitReq hr1
  have hr3 : Reachable exCatalog exDb3 :=
    Reachable.complete exDb2 true true exSid 2 3 hr2
  have h := session_score_lifecycle exCatalog exDb3 hr3 exSid exSession3 rfl
  exact ⟨h.1.2 (by decide), (h.2 (by decide)).2.2 true true exSid 9 10,
    (h.2 (by decide)).2.1 true true exSid 11 exSubmitReq⟩

end QuizEngine
